import Mathlib

/- Shallow embedding of the pyatv authentication and pairing subsystem:
   pyatv/protocols/airplay/auth/init (pair_setup, pair_verify,
   verify_connection, extract_credentials, NullPairVerifyProcedure),
   pyatv/protocols/mrp/pairing.py (MrpPairingHandler) and pyatv/conf.py
   (AppleTV.set_credentials).  Asynchronous network outcomes are passed in
   as explicit parameters; exceptions become Except / Option error values. -/

/-- Authentication scheme tag, pyatv.auth.hap_pairing.AuthenticationType:
Null, Legacy, HAP or Transient. -/
inductive AuthenticationType where
  | Null
  | Legacy
  | HAP
  | Transient
  deriving DecidableEq

/-- Modelled from the spec: HapCredentials (pyatv.auth.hap_pairing) is not in
the excerpt.  Spec data model: a credential carries an authentication-scheme
tag, an optional identifier, long-term public key bytes, optional long-term
secret key bytes and scheme-specific extra bytes. -/
structure HapCredentials where
  type : AuthenticationType
  identifier : Option String
  long_term_public_key : List Nat
  long_term_secret_key : Option (List Nat)
  extra : List Nat
  deriving DecidableEq

/-- Modelled from the spec: the "no credentials" sentinel (authentication not
yet performed); its scheme tag is Null, so no verification is attempted. -/
def NO_CREDENTIALS : HapCredentials :=
  ⟨AuthenticationType.Null, none, [], none, []⟩

/-- Modelled from the spec: the "transient credentials" sentinel (no persisted
identity; a fresh ephemeral exchange every session), tagged Transient. -/
def TRANSIENT_CREDENTIALS : HapCredentials :=
  ⟨AuthenticationType.Transient, none, [], none, []⟩

/-- Modelled from the spec: the HAP SRP engine generates its own ephemeral and
long-term material during the exchange; the factories only construct a fresh
engine, so it carries no seed here. -/
structure SRPAuthHandler where
  fresh : Unit
  deriving DecidableEq

/-- Modelled from the spec: the legacy SRP engine is seeded with credentials
(stored ones for Pair-Verify, freshly generated ones for Pair-Setup). -/
structure LegacySRPAuthHandler where
  credentials : HapCredentials
  deriving DecidableEq

/-- Modelled from the spec: new_credentials (pyatv.protocols.airplay.srp)
generates fresh long-term legacy credentials; represented as a fixed
Legacy-tagged value since randomness is outside the embedding. -/
def new_credentials : HapCredentials :=
  ⟨AuthenticationType.Legacy, none, [], none, []⟩

/-- Modelled from the spec: HAPSession holds the two derived session keys;
enable installs them, decrypt / encrypt are its per-direction transforms. -/
structure HAPSession where
  output_key : String
  input_key : String
  deriving DecidableEq

/-- HAPSession.enable(output_key, input_key). -/
def HAPSession.enable (output_key input_key : String) : HAPSession :=
  ⟨output_key, input_key⟩

/-- A connection byte-stream hook: the identity pass-through by default, or one
of the session transforms installed by the encryption step. -/
inductive Processor where
  | identity
  | sessionDecrypt (session : HAPSession)
  | sessionEncrypt (session : HAPSession)
  deriving DecidableEq

/-- Modelled from the spec: HttpConnection exposes two swappable hooks,
send_processor and receive_processor, rewired by the encryption step. -/
structure HttpConnection where
  receive_processor : Processor
  send_processor : Processor
  deriving DecidableEq

/-- pyatv.exceptions.NotSupportedError, carrying its message. -/
structure NotSupportedError where
  msg : String
  deriving DecidableEq

/-- NullPairVerifyProcedure.verify_credentials: logs and returns False. -/
def NullPairVerifyProcedure.verify_credentials (_u : Unit) : Bool :=
  false

/-- NullPairVerifyProcedure.encryption_keys: raises NotSupportedError for
every choice of arguments. -/
def NullPairVerifyProcedure.encryption_keys
    (_salt _output_info _input_key : String) :
    Except NotSupportedError (String × String) :=
  Except.error ⟨"encryption keys not supported by null implementation"⟩

/-- Pair-Setup procedure variants returned by pair_setup. -/
inductive PairSetupProcedure where
  | legacy (connection : HttpConnection) (srp : LegacySRPAuthHandler)
  | hap (connection : HttpConnection) (srp : SRPAuthHandler)
  deriving DecidableEq

/-- Pair-Verify procedure variants returned by pair_verify. -/
inductive PairVerifyProcedure where
  | null
  | legacy (connection : HttpConnection) (srp : LegacySRPAuthHandler)
  | hap (connection : HttpConnection) (srp : SRPAuthHandler)
      (credentials : HapCredentials)
  | hapTransient (connection : HttpConnection) (srp : SRPAuthHandler)
  deriving DecidableEq

/-- Printable name of an AuthenticationType, for the error message text. -/
def authTypeName : AuthenticationType → String
  | AuthenticationType.Null => "AuthenticationType.Null"
  | AuthenticationType.Legacy => "AuthenticationType.Legacy"
  | AuthenticationType.HAP => "AuthenticationType.HAP"
  | AuthenticationType.Transient => "AuthenticationType.Transient"

/-- pair_setup(auth_type, connection): Legacy gives a legacy procedure seeded
with fresh credentials, HAP gives a HAP procedure with a fresh engine, and
every other type raises NotSupportedError. -/
def pair_setup (auth_type : AuthenticationType) (connection : HttpConnection) :
    Except NotSupportedError PairSetupProcedure :=
  if auth_type = AuthenticationType.Legacy then
    Except.ok (PairSetupProcedure.legacy connection ⟨new_credentials⟩)
  else if auth_type = AuthenticationType.HAP then
    Except.ok (PairSetupProcedure.hap connection ⟨()⟩)
  else
    Except.error
      ⟨"authentication type " ++ authTypeName auth_type ++
        " does not support Pair-Setup"⟩

/-- pair_verify(credentials, connection): dispatches on credentials.type; the
fall-through case (Transient) binds a fresh HAP engine with no credentials. -/
def pair_verify (credentials : HapCredentials) (connection : HttpConnection) :
    PairVerifyProcedure :=
  if credentials.type = AuthenticationType.Null then
    PairVerifyProcedure.null
  else if credentials.type = AuthenticationType.Legacy then
    PairVerifyProcedure.legacy connection ⟨credentials⟩
  else if credentials.type = AuthenticationType.HAP then
    PairVerifyProcedure.hap connection ⟨()⟩ credentials
  else
    PairVerifyProcedure.hapTransient connection ⟨()⟩

/-- Outcome of verifier.verify_credentials(): the Null variant always reports
False; for the network-driven variants the outcome is the result net reported
by the remote exchange. -/
def runVerifyCredentials : PairVerifyProcedure → Bool → Bool
  | PairVerifyProcedure.null, _ => false
  | _, net => net

def CONTROL_SALT : String := "Control-Salt"

def CONTROL_OUTPUT_INFO : String := "Control-Write-Encryption-Key"

def CONTROL_INPUT_INFO : String := "Control-Read-Encryption-Key"

/-- verify_connection(credentials, connection): runs Pair-Verify and, when it
reports encryption keys, derives (output_key, input_key) from the three fixed
control-channel labels via the verifier's encryption_keys (the derivation is
the parameter encKeys) and installs the session transforms on the connection;
otherwise the connection is returned untouched. -/
def verify_connection (credentials : HapCredentials)
    (connection : HttpConnection) (net : Bool)
    (encKeys : String → String → String → String × String) : HttpConnection :=
  let verifier := pair_verify credentials connection
  let has_encryption_keys := runVerifyCredentials verifier net
  if has_encryption_keys then
    let keys := encKeys CONTROL_SALT CONTROL_OUTPUT_INFO CONTROL_INPUT_INFO
    let session := HAPSession.enable keys.1 keys.2
    { connection with
        receive_processor := Processor.sessionDecrypt session
        send_processor := Processor.sessionEncrypt session }
  else
    connection

/-- Value of one hexadecimal digit character (0 for a non-hex character). -/
def hexDigitVal (c : Char) : Nat :=
  if '0' ≤ c ∧ c ≤ '9' then c.toNat - '0'.toNat
  else if 'a' ≤ c ∧ c ≤ 'f' then c.toNat - 'a'.toNat + 10
  else if 'A' ≤ c ∧ c ≤ 'F' then c.toNat - 'A'.toNat + 10
  else 0

/-- Modelled from the spec: ft.parse (pyatv.protocols.airplay.features) is not
in the excerpt.  Spec external interfaces: capability flags are a bitmask
parsed from a hexadecimal string property. -/
def ft.parse (s : String) : Nat :=
  let chars := s.data
  let hexChars := if chars.take 2 = ['0', 'x'] then chars.drop 2 else chars
  hexChars.foldl (fun a c => 16 * a + hexDigitVal c) 0

/-- Modelled from the spec: bit mask of the "supports system pairing" flag.
The spec scenario says features value 0x18000000 covers both pairing flags,
so the two flags are bits 27 and 28. -/
def AirPlayFlags.SupportsSystemPairing : Nat := 0x08000000

/-- Modelled from the spec: bit mask of the "supports core-utils pairing and
encryption" flag (the other bit covered by 0x18000000). -/
def AirPlayFlags.SupportsCoreUtilsPairingAndEncryption : Nat := 0x10000000

/-- IntFlag membership test, flag in features. -/
def flagIn (flag features : Nat) : Bool :=
  features &&& flag = flag

/-- Protocol tags from pyatv.const used as service keys in a configuration. -/
inductive Protocol where
  | DMAP
  | MRP
  | AirPlay
  | Companion
  | RAOP
  deriving DecidableEq

/-- Modelled from the spec: the BaseService boundary (pyatv.interface):
identifier, protocol tag, port, a string-to-string properties mapping and a
credentials slot. -/
structure BaseService where
  identifier : Option String
  protocol : Protocol
  port : Nat
  properties : List (String × String)
  credentials : Option String
  deriving DecidableEq

/-- extract_credentials(service): the stored token is parsed when present
(parse stands for pyatv.auth.hap_pairing.parse_credentials); otherwise the
"features" property (default "0x0") selects the transient sentinel when
either pairing flag is present, the no-credentials sentinel otherwise. -/
def extract_credentials (parse : String → HapCredentials)
    (service : BaseService) : HapCredentials :=
  match service.credentials with
  | some stored => parse stored
  | none =>
    let features := ft.parse ((service.properties.lookup "features").getD "0x0")
    if flagIn AirPlayFlags.SupportsSystemPairing features
        || flagIn AirPlayFlags.SupportsCoreUtilsPairingAndEncryption features then
      TRANSIENT_CREDENTIALS
    else
      NO_CREDENTIALS

/-- Modelled from the spec boundary: opaque device information record. -/
structure DeviceInfo where
  data : List (String × String)
  deriving DecidableEq

/-- Representation of an Apple TV configuration (pyatv.conf.AppleTV); the
services dict becomes an association list keyed by protocol. -/
structure AppleTV where
  address : String
  name : String
  deep_sleep : Bool
  properties : List (String × List (String × String))
  services : List (Protocol × BaseService)
  device_info : DeviceInfo
  deriving DecidableEq

/-- AppleTV.get_service(protocol): dict lookup, None when absent. -/
def AppleTV.get_service (self : AppleTV) (protocol : Protocol) :
    Option BaseService :=
  self.services.lookup protocol

/-- The in-place mutation service.credentials = credentials on the service
object stored for the protocol: rewrite the first matching entry. -/
def setServiceCredentials :
    List (Protocol × BaseService) → Protocol → String →
    List (Protocol × BaseService)
  | [], _, _ => []
  | (p, s) :: rest, protocol, credentials =>
    if p = protocol then
      (p, { s with credentials := some credentials }) :: rest
    else
      (p, s) :: setServiceCredentials rest protocol credentials

/-- AppleTV.set_credentials(protocol, credentials): True and the mutation when
a service for the protocol exists, False and no change otherwise. -/
def AppleTV.set_credentials (self : AppleTV) (protocol : Protocol)
    (credentials : String) : Bool × AppleTV :=
  match self.get_service protocol with
  | some _ =>
    (true,
      { self with
          services := setServiceCredentials self.services protocol credentials })
  | none => (false, self)

/-- Python str.zfill: left-pad with zeros to the width, keeping a leading
sign character in front of the padding. -/
def zfill (s : String) (width : Nat) : String :=
  let chars := s.data
  if width ≤ chars.length then s
  else if chars.take 1 = ['-'] ∨ chars.take 1 = ['+'] then
    String.mk
      (chars.take 1 ++ List.replicate (width - chars.length) '0' ++
        chars.drop 1)
  else
    String.mk (List.replicate (width - chars.length) '0' ++ chars)

/-- pyatv.exceptions.PairingError raised by the MRP pairing handler. -/
inductive MrpError where
  | pairingError (msg : String)
  deriving DecidableEq

/-- State of an MrpPairingHandler: the target service, the pin_code slot and
the _has_paired flag (connection, SRP engine and protocol objects hold no
state the embedded methods read). -/
structure MrpPairingHandler where
  service : BaseService
  pin_code : Option String
  hasPairedFlag : Bool
  deriving DecidableEq

/-- Constructor state: pin_code starts as None, _has_paired as False. -/
def MrpPairingHandler.mkNew (service : BaseService) : MrpPairingHandler :=
  ⟨service, none, false⟩

/-- Property has_paired, returning the _has_paired flag. -/
def MrpPairingHandler.has_paired (self : MrpPairingHandler) : Bool :=
  self.hasPairedFlag

/-- Python truthiness of the pin_code slot: None and "" are falsy. -/
def truthyStrOpt : Option String → Bool
  | none => false
  | some s => s != ""

/-- MrpPairingHandler.pin(pin): stores str(pin).zfill(4); no device contact,
no other state read or written. -/
def MrpPairingHandler.pin (self : MrpPairingHandler) (pin : Int) :
    MrpPairingHandler :=
  { self with pin_code := some (zfill (toString pin) 4) }

/-- MrpPairingHandler.begin(): runs start_pairing under error_handler (outcome
start), wrapping failures into PairingError; handler state is untouched. -/
def MrpPairingHandler.begin (self : MrpPairingHandler)
    (start : Except String Unit) : MrpPairingHandler × Option MrpError :=
  match start with
  | Except.ok _ => (self, none)
  | Except.error e => (self, some (MrpError.pairingError e))

/-- MrpPairingHandler.finish(): fails with "no pin given" when pin_code is
falsy; otherwise runs finish_pairing (outcome finishRes, the str()-converted
credential token on success) then verify_credentials on the parsed token
(outcome verifyRes), both wrapped into PairingError by error_handler; only
when both succeed are service.credentials and _has_paired assigned. -/
def MrpPairingHandler.finish (self : MrpPairingHandler)
    (finishRes : Except String String) (verifyRes : Except String Unit) :
    MrpPairingHandler × Option MrpError :=
  if truthyStrOpt self.pin_code = false then
    (self, some (MrpError.pairingError "no pin given"))
  else
    match finishRes with
    | Except.error e => (self, some (MrpError.pairingError e))
    | Except.ok credentials =>
      match verifyRes with
      | Except.error e => (self, some (MrpError.pairingError e))
      | Except.ok _ =>
        ({ self with
            service := { self.service with credentials := some credentials }
            hasPairedFlag := true }, none)

/-- The variant of a Pair-Verify procedure, forgetting its payload. -/
inductive VerifyVariant where
  | nullV
  | legacyV
  | hapV
  | transientV
  deriving DecidableEq

/-- Variant tag of a constructed Pair-Verify procedure. -/
def verifyVariantOf : PairVerifyProcedure → VerifyVariant
  | PairVerifyProcedure.null => VerifyVariant.nullV
  | PairVerifyProcedure.legacy _ _ => VerifyVariant.legacyV
  | PairVerifyProcedure.hap _ _ _ => VerifyVariant.hapV
  | PairVerifyProcedure.hapTransient _ _ => VerifyVariant.transientV

/-- C1: pair_verify(c, connection) returns the Null verifier variant when
c.type is Null, the Legacy variant when c.type is Legacy, the HAP variant
when c.type is HAP, and the ephemeral/transient HAP variant for every other
AuthenticationType value. -/
theorem pair_verify_dispatch (c : HapCredentials) (connection : HttpConnection) :
    verifyVariantOf (pair_verify c connection) =
      match c.type with
      | AuthenticationType.Null => VerifyVariant.nullV
      | AuthenticationType.Legacy => VerifyVariant.legacyV
      | AuthenticationType.HAP => VerifyVariant.hapV
      | AuthenticationType.Transient => VerifyVariant.transientV := by
  cases h : c.type <;> simp [pair_verify, verifyVariantOf, h]

/-- The outcome kind of pair_setup, forgetting payloads. -/
inductive SetupOutcome where
  | legacyS
  | hapS
  | notSupportedS
  deriving DecidableEq

/-- Outcome kind of a pair_setup call. -/
def setupOutcomeOf :
    Except NotSupportedError PairSetupProcedure → SetupOutcome
  | Except.ok (PairSetupProcedure.legacy _ _) => SetupOutcome.legacyS
  | Except.ok (PairSetupProcedure.hap _ _) => SetupOutcome.hapS
  | Except.error _ => SetupOutcome.notSupportedS

/-- C2: pair_setup(t, connection) returns a Legacy Pair-Setup procedure when
t is Legacy, a HAP Pair-Setup procedure when t is HAP, and raises
NotSupportedError for every other value of t (Transient and Null). -/
theorem pair_setup_dispatch (t : AuthenticationType)
    (connection : HttpConnection) :
    setupOutcomeOf (pair_setup t connection) =
      match t with
      | AuthenticationType.Legacy => SetupOutcome.legacyS
      | AuthenticationType.HAP => SetupOutcome.hapS
      | AuthenticationType.Transient => SetupOutcome.notSupportedS
      | AuthenticationType.Null => SetupOutcome.notSupportedS := by
  cases t <;> rfl

/-- C7: NullPairVerifyProcedure.verify_credentials() returns false on every
call, and NullPairVerifyProcedure.encryption_keys raises NotSupportedError
for every choice of arguments. -/
theorem null_pair_verify_behaviour :
    (∀ u : Unit, NullPairVerifyProcedure.verify_credentials u = false) ∧
    (∀ salt outputLabel inputLabel : String,
      NullPairVerifyProcedure.encryption_keys salt outputLabel inputLabel =
        Except.error
          ⟨"encryption keys not supported by null implementation"⟩) :=
  ⟨fun _ => rfl, fun _ _ _ => rfl⟩

/-- C9: pin(v) stores exactly str(v).zfill(4) as the PIN, touches no other
handler state (no device contact), and a later pin() call overwrites an
earlier one. -/
theorem pin_stores_zfill (h : MrpPairingHandler) (v w : Int) :
    (h.pin v).pin_code = some (zfill (toString v) 4) ∧
    (h.pin v).service = h.service ∧
    (h.pin v).has_paired = h.has_paired ∧
    (h.pin v).pin w = h.pin w := by
  refine ⟨rfl, rfl, rfl, rfl⟩

/-- A concrete MRP service used to instantiate the theorems below. -/
def sampleService : BaseService :=
  ⟨some "aa:bb:cc:dd:ee:ff", Protocol.MRP, 49152, [], none⟩

/-- C3: finish() on a handler on which no PIN has been set (pin_code still
None) immediately raises PairingError "no pin given" whatever the pairing
exchange outcomes would have been (it never runs them), leaves the handler
unchanged, and has_paired stays false. -/
theorem finish_without_pin (h : MrpPairingHandler)
    (fr : Except String String) (vr : Except String Unit)
    (hp : h.pin_code = none) :
    h.finish fr vr = (h, some (MrpError.pairingError "no pin given")) ∧
    (h.has_paired = false → (h.finish fr vr).1.has_paired = false) := by
  have hfalse : truthyStrOpt h.pin_code = false := by rw [hp]; rfl
  constructor
  · simp [MrpPairingHandler.finish, hfalse]
  · intro hh
    simpa [MrpPairingHandler.finish, hfalse] using hh

/-- Witness for finish_without_pin on a freshly constructed handler. -/
theorem finish_without_pin_witness :
    (MrpPairingHandler.mkNew sampleService).finish
        (Except.ok "token") (Except.ok ()) =
      (MrpPairingHandler.mkNew sampleService,
        some (MrpError.pairingError "no pin given")) :=
  (finish_without_pin (MrpPairingHandler.mkNew sampleService)
    (Except.ok "token") (Except.ok ()) rfl).1

/-- C4: finish() is atomic with respect to the stored credential and the
has_paired flag: on any failure the handler (hence service.credentials and
_has_paired) is exactly as before the call; it succeeds exactly when the PIN
is set and both finish_pairing and the Pair-Verify step succeed, and only
then is the credential stored and _has_paired set true. -/
theorem finish_atomic (h : MrpPairingHandler) (fr : Except String String)
    (vr : Except String Unit) :
    ((h.finish fr vr).2 ≠ none → (h.finish fr vr).1 = h) ∧
    ((h.finish fr vr).2 = none ↔
      truthyStrOpt h.pin_code = true ∧
        ∃ c, fr = Except.ok c ∧ vr = Except.ok ()) ∧
    (∀ c, truthyStrOpt h.pin_code = true → fr = Except.ok c →
      vr = Except.ok () →
      h.finish fr vr =
        ({ h with
            service := { h.service with credentials := some c }
            hasPairedFlag := true }, none)) := by
  unfold MrpPairingHandler.finish
  cases hb : truthyStrOpt h.pin_code
  · simp
  · rcases fr with e | cred
    · simp
    · rcases vr with e | u
      · simp
      · cases u
        simp

/-- The fresh handler after the PIN 1234 has been supplied. -/
def pinnedHandler : MrpPairingHandler :=
  (MrpPairingHandler.mkNew sampleService).pin 1234

/-- Witness for finish_atomic: a successful run reports no error, a failed
finish_pairing leaves the pinned handler untouched. -/
theorem finish_atomic_witness :
    (pinnedHandler.finish (Except.ok "mrp-token") (Except.ok ())).2 = none ∧
    (pinnedHandler.finish (Except.error "srp failure") (Except.ok ())).1 =
      pinnedHandler := by
  have h1 := finish_atomic pinnedHandler (Except.ok "mrp-token") (Except.ok ())
  have h2 := finish_atomic pinnedHandler (Except.error "srp failure")
    (Except.ok ())
  exact ⟨h1.2.1.mpr ⟨by decide, "mrp-token", rfl, rfl⟩, h2.1 (by decide)⟩

/-- C8 counterexample: pin() on a handler still in the Created state (fresh
from the constructor, begin() never called) is recorded, not rejected: the
pin_code slot changes from None to the normalized PIN. -/
theorem pin_unguarded_counterexample :
    ¬ (((MrpPairingHandler.mkNew sampleService).pin 1234).pin_code =
        (MrpPairingHandler.mkNew sampleService).pin_code) ∧
    ((MrpPairingHandler.mkNew sampleService).pin 1234).pin_code =
      some "1234" := by
  constructor
  · decide
  · decide

/-- C8 amended: the handler guards only finish(): pin(value) is accepted and
recorded in every state (there is no Began precondition), while finish()
requires a truthy pin_code and otherwise fails with PairingError
"no pin given". -/
theorem pairing_handler_guards (h : MrpPairingHandler) (v : Int)
    (fr : Except String String) (vr : Except String Unit) :
    (h.pin v).pin_code = some (zfill (toString v) 4) ∧
    (truthyStrOpt h.pin_code = false →
      h.finish fr vr = (h, some (MrpError.pairingError "no pin given"))) := by
  constructor
  · rfl
  · intro hb
    simp [MrpPairingHandler.finish, hb]

/-- Witness for pairing_handler_guards at the fresh handler. -/
theorem pairing_handler_guards_witness :
    ((MrpPairingHandler.mkNew sampleService).pin 7).pin_code =
      some (zfill (toString (7 : Int)) 4) ∧
    (MrpPairingHandler.mkNew sampleService).finish
        (Except.ok "token") (Except.ok ()) =
      (MrpPairingHandler.mkNew sampleService,
        some (MrpError.pairingError "no pin given")) := by
  have hthm := pairing_handler_guards (MrpPairingHandler.mkNew sampleService) 7
    (Except.ok "token") (Except.ok ())
  exact ⟨hthm.1, hthm.2 (by decide)⟩

/-- C5: extract_credentials returns the parse of the stored token whenever
service.credentials is set, irrespective of the capability flags in
properties; with no stored credential it returns the transient sentinel
exactly when the parsed "features" property (default "0x0") contains the
system-pairing flag or the core-utils-pairing-and-encryption flag, and the
no-credentials sentinel otherwise. -/
theorem extract_credentials_cases (parse : String → HapCredentials)
    (service : BaseService) :
    (∀ tok, service.credentials = some tok →
      extract_credentials parse service = parse tok ∧
      ∀ props,
        extract_credentials parse { service with properties := props } =
          parse tok) ∧
    (service.credentials = none →
      extract_credentials parse service =
        if flagIn AirPlayFlags.SupportsSystemPairing
            (ft.parse ((service.properties.lookup "features").getD "0x0"))
          || flagIn AirPlayFlags.SupportsCoreUtilsPairingAndEncryption
            (ft.parse ((service.properties.lookup "features").getD "0x0"))
        then TRANSIENT_CREDENTIALS
        else NO_CREDENTIALS) := by
  constructor
  · intro tok htok
    constructor
    · simp [extract_credentials, htok]
    · intro props
      simp [extract_credentials, htok]
  · intro hnone
    simp [extract_credentials, hnone]

/-- A concrete credential parse standing in for parse_credentials. -/
def sampleParse : String → HapCredentials :=
  fun s => ⟨AuthenticationType.HAP, some s, [], none, []⟩

/-- A concrete AirPlay service advertising both pairing capability bits. -/
def sampleAirPlayService : BaseService :=
  ⟨some "airplay-id", Protocol.AirPlay, 7000,
    [("features", "0x18000000")], none⟩

/-- Witness for extract_credentials_cases: a stored token wins over the
flags, and the flag bits select the transient sentinel otherwise. -/
theorem extract_credentials_cases_witness :
    extract_credentials sampleParse
        { sampleAirPlayService with credentials := some "stored-token" } =
      sampleParse "stored-token" ∧
    extract_credentials sampleParse sampleAirPlayService =
      TRANSIENT_CREDENTIALS := by
  constructor
  · exact ((extract_credentials_cases sampleParse
      { sampleAirPlayService with credentials := some "stored-token" }).1
        "stored-token" rfl).1
  · have h2 := (extract_credentials_cases sampleParse sampleAirPlayService).2
      rfl
    rw [h2]
    decide

/-- C6: after verify_connection, if the verifier reported encryption keys the
connection's receive hook is the session decrypt transform and its send hook
the session encrypt transform (no longer identity), keyed from the derivation
applied to the three fixed control-channel labels; if it reported false the
connection is returned with both hooks exactly as they were. -/
theorem verify_connection_hooks (c : HapCredentials)
    (connection : HttpConnection) (net : Bool)
    (encKeys : String → String → String → String × String) :
    (runVerifyCredentials (pair_verify c connection) net = true →
      verify_connection c connection net encKeys =
        { connection with
            receive_processor := Processor.sessionDecrypt
              (HAPSession.enable
                (encKeys CONTROL_SALT CONTROL_OUTPUT_INFO CONTROL_INPUT_INFO).1
                (encKeys CONTROL_SALT CONTROL_OUTPUT_INFO CONTROL_INPUT_INFO).2)
            send_processor := Processor.sessionEncrypt
              (HAPSession.enable
                (encKeys CONTROL_SALT CONTROL_OUTPUT_INFO CONTROL_INPUT_INFO).1
                (encKeys CONTROL_SALT CONTROL_OUTPUT_INFO CONTROL_INPUT_INFO).2) } ∧
      (verify_connection c connection net encKeys).receive_processor ≠
        Processor.identity ∧
      (verify_connection c connection net encKeys).send_processor ≠
        Processor.identity) ∧
    (runVerifyCredentials (pair_verify c connection) net = false →
      verify_connection c connection net encKeys = connection) := by
  constructor
  · intro htrue
    refine ⟨?_, ?_, ?_⟩ <;> simp [verify_connection, htrue]
  · intro hfalse
    simp [verify_connection, hfalse]

/-- A connection whose hooks are still the identity pass-throughs. -/
def idConnection : HttpConnection :=
  ⟨Processor.identity, Processor.identity⟩

/-- A concrete key derivation for the witness. -/
def sampleEncKeys : String → String → String → String × String :=
  fun _ _ _ => ("outkey", "inkey")

/-- Witness for verify_connection_hooks: a transient verify that succeeds
installs the session transforms, and the Null credential leaves the
connection untouched. -/
theorem verify_connection_hooks_witness :
    verify_connection TRANSIENT_CREDENTIALS idConnection true sampleEncKeys =
      ⟨Processor.sessionDecrypt ⟨"outkey", "inkey"⟩,
        Processor.sessionEncrypt ⟨"outkey", "inkey"⟩⟩ ∧
    verify_connection NO_CREDENTIALS idConnection true sampleEncKeys =
      idConnection := by
  constructor
  · exact ((verify_connection_hooks TRANSIENT_CREDENTIALS idConnection true
      sampleEncKeys).1 (by decide)).1
  · exact (verify_connection_hooks NO_CREDENTIALS idConnection true
      sampleEncKeys).2 (by decide)

/-- Helper: rewriting the credentials of the service stored for p updates the
entry found for p. -/
theorem lookup_setServiceCredentials_self (p : Protocol) (c : String) :
    ∀ (l : List (Protocol × BaseService)) (s : BaseService),
      l.lookup p = some s →
      (setServiceCredentials l p c).lookup p =
        some { s with credentials := some c } := by
  intro l
  induction l with
  | nil =>
    intro s hs
    simp [List.lookup] at hs
  | cons hd tl ih =>
    intro s hs
    obtain ⟨q, t⟩ := hd
    by_cases hq : q = p
    · subst hq
      simp [List.lookup] at hs
      subst hs
      simp [setServiceCredentials, List.lookup]
    · have hbeq : (p == q) = false := by
        simpa using fun h => hq h.symm
      simp [List.lookup, hbeq] at hs
      simp [setServiceCredentials, hq, List.lookup, hbeq]
      exact ih s hs

/-- Helper: the entries for every other protocol are untouched. -/
theorem lookup_setServiceCredentials_other (p q : Protocol) (c : String)
    (hqp : q ≠ p) :
    ∀ l : List (Protocol × BaseService),
      (setServiceCredentials l p c).lookup q = l.lookup q := by
  intro l
  induction l with
  | nil => rfl
  | cons hd tl ih =>
    obtain ⟨r, t⟩ := hd
    by_cases hr : r = p
    · subst hr
      have hbq : (q == r) = false := by simpa using hqp
      simp [setServiceCredentials, List.lookup, hbq]
    · by_cases hqr : q = r
      · subst hqr
        simp [setServiceCredentials, hr, List.lookup]
      · have hbq : (q == r) = false := by simpa using hqr
        simp [setServiceCredentials, hr, List.lookup, hbq]
        exact ih

/-- C10: set_credentials(p, c) returns true and rewrites exactly the
credentials field of the service registered for p when one exists (all its
other fields, every other protocol's service and every other configuration
field are unchanged), and returns false with the configuration untouched
when no service for p exists — absence is signalled by the boolean, never
by an exception. -/
theorem set_credentials_frame (atv : AppleTV) (p : Protocol) (c : String) :
    (atv.get_service p = none → atv.set_credentials p c = (false, atv)) ∧
    (∀ s, atv.get_service p = some s →
      (atv.set_credentials p c).1 = true ∧
      (atv.set_credentials p c).2.get_service p =
        some { s with credentials := some c } ∧
      (∀ q, q ≠ p →
        (atv.set_credentials p c).2.get_service q = atv.get_service q) ∧
      (atv.set_credentials p c).2.address = atv.address ∧
      (atv.set_credentials p c).2.name = atv.name ∧
      (atv.set_credentials p c).2.deep_sleep = atv.deep_sleep ∧
      (atv.set_credentials p c).2.properties = atv.properties ∧
      (atv.set_credentials p c).2.device_info = atv.device_info) := by
  constructor
  · intro hnone
    simp [AppleTV.set_credentials, hnone]
  · intro s hs
    have hset :
        atv.set_credentials p c =
          (true,
            { atv with
                services := setServiceCredentials atv.services p c }) := by
      simp [AppleTV.set_credentials, hs]
    rw [hset]
    refine ⟨rfl, ?_, ?_, rfl, rfl, rfl, rfl, rfl⟩
    · exact lookup_setServiceCredentials_self p c atv.services s hs
    · intro q hq
      exact lookup_setServiceCredentials_other p q c hq atv.services

/-- A configuration holding the sample MRP and AirPlay services. -/
def sampleAtv : AppleTV :=
  ⟨"10.0.0.2", "Living Room", false, [],
    [(Protocol.MRP, sampleService), (Protocol.AirPlay, sampleAirPlayService)],
    ⟨[]⟩⟩

/-- Witness for set_credentials_frame: updating MRP succeeds and rewrites
only that service's credentials; DMAP has no service, so the call reports
false and returns the configuration unchanged. -/
theorem set_credentials_frame_witness :
    (sampleAtv.set_credentials Protocol.MRP "mrp-creds").1 = true ∧
    (sampleAtv.set_credentials Protocol.MRP "mrp-creds").2.get_service
        Protocol.MRP =
      some { sampleService with credentials := some "mrp-creds" } ∧
    sampleAtv.set_credentials Protocol.DMAP "mrp-creds" = (false, sampleAtv) := by
  have hsome := (set_credentials_frame sampleAtv Protocol.MRP "mrp-creds").2
    sampleService (by decide)
  exact ⟨hsome.1, hsome.2.1,
    (set_credentials_frame sampleAtv Protocol.DMAP "mrp-creds").1 (by decide)⟩
